import Mathlib

/-!
Verification development for the CreatorPulse newsletter system.

The React frontend (`creatorpulse-frontend/src`) is embedded directly from
its source files.  The FastAPI backend (content normalizer, draft
synthesizer, dispatch scheduler, delivery engine) is not part of the
checked-in sources; its operations are modelled from the written
specification and from the integration document
(`FastAPI Integration Endpoints`) that ships with the repository.
-/

/-! ## JSON values (shallow model of the JavaScript values handled by
    `ApiService` in `creatorpulse-frontend/src/services/api.js`) -/

/-- Parsed JSON value.  Numbers are restricted to integers, which covers
every value exchanged by the API surface under study. -/
inductive Json where
  | null : Json
  | bool (b : Bool) : Json
  | num (n : Int) : Json
  | str (s : String) : Json
  | arr (elems : List Json) : Json
  | obj (fields : List (String × Json)) : Json

/-- Lower-case hexadecimal digit for `JSON.stringify` control-character
escapes. -/
def hexDigit (n : Nat) : String :=
  if n = 0 then "0" else if n = 1 then "1" else if n = 2 then "2"
  else if n = 3 then "3" else if n = 4 then "4" else if n = 5 then "5"
  else if n = 6 then "6" else if n = 7 then "7" else if n = 8 then "8"
  else if n = 9 then "9" else if n = 10 then "a" else if n = 11 then "b"
  else if n = 12 then "c" else if n = 13 then "d" else if n = 14 then "e"
  else "f"

/-- Character escaping as performed by `JSON.stringify` on string values. -/
def escapeChar (c : Char) : String :=
  if c = '"' then "\\\""
  else if c = '\\' then "\\\\"
  else if c = '\n' then "\\n"
  else if c = '\r' then "\\r"
  else if c = '\t' then "\\t"
  else if c.toNat = 8 then "\\b"
  else if c.toNat = 12 then "\\f"
  else if c.toNat < 32 then
    "\\u00" ++ hexDigit (c.toNat / 16) ++ hexDigit (c.toNat % 16)
  else String.singleton c

/-- String escaping and quoting as performed by `JSON.stringify`. -/
def escapeString (s : String) : String :=
  "\"" ++ s.data.foldl (fun acc c => acc ++ escapeChar c) "" ++ "\""

mutual

/-- Model of `JSON.stringify` on acyclic JSON values (on such values the
JavaScript function always succeeds, so the `try/catch` around it in
`_extractErrorMessage` never takes its fallback branch). -/
def jsonStringify : Json → String
  | Json.null => "null"
  | Json.bool b => if b then "true" else "false"
  | Json.num n => toString n
  | Json.str s => escapeString s
  | Json.arr xs => "[" ++ stringifyElems xs ++ "]"
  | Json.obj fs => "\x7b" ++ stringifyFields fs ++ "\x7d"

/-- Comma-separated rendering of array elements. -/
def stringifyElems : List Json → String
  | [] => ""
  | [x] => jsonStringify x
  | x :: y :: xs => jsonStringify x ++ "," ++ stringifyElems (y :: xs)

/-- Comma-separated rendering of object fields. -/
def stringifyFields : List (String × Json) → String
  | [] => ""
  | [p] => escapeString p.1 ++ ":" ++ jsonStringify p.2
  | p :: q :: fs => escapeString p.1 ++ ":" ++ jsonStringify p.2 ++ "," ++ stringifyFields (q :: fs)

end

/-- JavaScript property read on a parsed JSON value: last binding wins for
objects (matching `JSON.parse`), `none` models `undefined` (absent key or
non-object receiver). -/
def jsonGetField (v : Json) (key : String) : Option Json :=
  match v with
  | Json.obj fs => fs.foldl (fun acc p => if p.1 = key then some p.2 else acc) none
  | _ => none

/-- Test for `typeof v === 'object'` on a defined JavaScript value coming
from JSON: `null`, arrays and objects all satisfy it. -/
def jsTypeofIsObject : Json → Bool
  | Json.null => true
  | Json.arr _ => true
  | Json.obj _ => true
  | _ => false

/-- Test for a JSON object in the strict sense (a brace-delimited map).
Used to state claims about the error-extraction behaviour. -/
def isJsonObject : Json → Bool
  | Json.obj _ => true
  | _ => false

/-- Test for a JSON string. -/
def isJsonString : Json → Bool
  | Json.str _ => true
  | _ => false

/-! ## ApiService (`creatorpulse-frontend/src/services/api.js`) -/

/-- HTTP response as observed by `ApiService.request`: the `ok` flag,
status code and text, and the outcome of `response.json()` (`Except.error`
carries the parse-failure message). -/
structure HttpResponse where
  ok : Bool
  status : Nat
  statusText : String
  body : Except String Json

/-- Fallback message `HTTP <status>: <statusText>` used by
`_extractErrorMessage`. -/
def httpFallback (status : Nat) (statusText : String) : String :=
  "HTTP " ++ toString status ++ ": " ++ statusText

/-- Embedding of `ApiService._extractErrorMessage(errorData, response)`:
a string `detail` is returned as is; a defined `detail` with
`typeof === 'object'` (object, array, or `null`) is passed through
`JSON.stringify`; anything else falls back to `HTTP <status>: <statusText>`. -/
def extractErrorMessage (errorData : Json) (status : Nat) (statusText : String) : String :=
  match jsonGetField errorData "detail" with
  | some (Json.str s) => s
  | some v => if jsTypeofIsObject v then jsonStringify v else httpFallback status statusText
  | none => httpFallback status statusText

/-- Embedding of `ApiService.request`: on a non-ok response the body is
parsed (falling back to the empty object `{}` when parsing fails, per
`.catch(() => ({}))`) and an error with the extracted message is thrown;
on an ok response the parsed JSON body is returned (a parse failure on an
ok response propagates as the thrown parse error). -/
def apiRequest (resp : HttpResponse) : Except String Json :=
  if resp.ok then
    resp.body
  else
    let errorData := match resp.body with
      | Except.ok j => j
      | Except.error _ => Json.obj []
    Except.error (extractErrorMessage errorData resp.status resp.statusText)

/-! ## Source records and the frontend newsletter editor
    (`NewsletterEditor` component, `src/unnamed/part_002`) -/

/-- Source record as read from the `sources` table and as shipped in a
draft-generation request (`sourcesData` projection in
`handleGenerateFromSources`). -/
structure Source where
  id : String
  source_type : String
  source_name : String
  source_identifier : String
  active : Bool
deriving Repr, DecidableEq

/-- Comparator for the `order('source_name')` clause of the sources query. -/
def srcNameLE (a b : Source) : Bool :=
  decide (a.source_name ≤ b.source_name)

/-- Embedding of `fetchSources` in `NewsletterEditor`: the supabase query
`from('sources').select('*').eq('active', true).order('source_name')`,
i.e. the rows of the table with `active = true`, ordered by name. -/
def fetchSources (table : List Source) : List Source :=
  (table.filter (fun s => s.active)).mergeSort srcNameLE

/-- Per-source projection applied by `handleGenerateFromSources` when it
builds the request payload. -/
def toSourceData (s : Source) : Source :=
  { id := s.id
    source_type := s.source_type
    source_name := s.source_name
    source_identifier := s.source_identifier
    active := s.active }

/-- Newsletter record as held by the editor (`newsletter` prop). -/
structure Newsletter where
  id : String
  title : String
  content : String
  status : String
deriving Repr

/-- Newsletter identifier put in the draft-generation request:
`newsletter?.id || 'new'` — the persisted id when present and truthy, the
sentinel `"new"` otherwise. -/
def newsletterIdFor (nl : Option Newsletter) : String :=
  match nl with
  | none => "new"
  | some n => if n.id = "" then "new" else n.id

/-- Draft-generation request body assembled by `handleGenerateFromSources`. -/
structure GenRequest where
  newsletterId : String
  sources : List Source
deriving Repr

/-- Embedding of the request construction in `handleGenerateFromSources`. -/
def buildGenerateRequest (nl : Option Newsletter) (sources : List Source) : GenRequest :=
  { newsletterId := newsletterIdFor nl
    sources := sources.map toSourceData }

/-- Draft-generation response as seen by the frontend; both fields may be
absent from the wire format, hence the options. -/
structure ApiDraftResponse where
  draft : Option String
  sources_used : Option (List String)
deriving Repr

/-- JavaScript truthiness of an optional string: defined and non-empty. -/
def optStrTruthy : Option String → Bool
  | none => false
  | some s => !(s == "")

/-- Editor form state (`formData` in `NewsletterEditor`). -/
structure FormData where
  title : String
  content : String
  status : String
deriving Repr, DecidableEq

/-- Alert raised at the end of `handleGenerateFromSources`. -/
inductive GenAlert where
  | noSources : GenAlert
  | generated (sourcesCount : Nat) : GenAlert
  | genFailed (msg : String) : GenAlert
deriving Repr, DecidableEq

/-- Source count reported in the success alert:
`response.sources_used?.length || sources.length` (note that a present but
empty list is falsy in JavaScript and also falls back). -/
def reportedSourceCount (used : Option (List String)) (fetched : List Source) : Nat :=
  match used with
  | none => fetched.length
  | some l => if l.length = 0 then fetched.length else l.length

/-- Embedding of `handleGenerateFromSources`: given the fetched active
sources, the outcome of the `apiService.generateDraft` call and the current
form state, it returns the new form state and the alert shown.  A thrown
API error and the in-function `throw` for a missing draft both land in the
`catch` branch, which leaves the form untouched. -/
def handleGenerateFromSources (sources : List Source)
    (api : Except String ApiDraftResponse) (st : FormData) : FormData × GenAlert :=
  if sources.length = 0 then
    (st, GenAlert.noSources)
  else
    match api with
    | Except.error msg => (st, GenAlert.genFailed msg)
    | Except.ok r =>
        if optStrTruthy r.draft then
          ({ st with content := r.draft.getD "" },
           GenAlert.generated (reportedSourceCount r.sources_used sources))
        else
          (st, GenAlert.genFailed "No draft content received from API")

/-- Hex-digit test for the UUID shape check. -/
def isHexChar (c : Char) : Bool :=
  c.isDigit || ('a' ≤ c && c ≤ 'f') || ('A' ≤ c && c ≤ 'F')

/-- Canonical 8-4-4-4-12 UUID shape. -/
def isUuidFormat (s : String) : Bool :=
  let cs := s.data
  cs.length = 36 &&
  (List.range 36).all (fun i =>
    if i = 8 || i = 13 || i = 18 || i = 23 then cs.getD i ' ' = '-'
    else isHexChar (cs.getD i ' '))

/-- Modelled from the spec: the backend's acceptance rule for the
newsletter identifier of a draft-generation request.  The FastAPI backend
is not under the checked-in sources; per the boundary contract
("input = newsletter identifier (or sentinel for not yet persisted)") and
the frontend debug test's note that the backend skips UUID validation for
`'new'`, the sentinel is accepted outright and other identifiers must be
UUID-shaped. -/
def acceptsNewsletterId (nid : String) : Bool :=
  nid == "new" || isUuidFormat nid

/-! ## Dispatch scheduler and delivery engine

The FastAPI backend implementing `POST /api/send-newsletter` is not under
the checked-in sources; the definitions below are modelled from the
specification (sections 4.4, 4.5 and 6) and from the integration document
shipped with the repository. -/

/-- Send mode of a job. -/
inductive SendMode where
  | immediate : SendMode
  | scheduled : SendMode
deriving Repr, DecidableEq

/-- Lifecycle status of a send job. -/
inductive JobStatus where
  | pending : JobStatus
  | sent : JobStatus
  | partially_failed : JobStatus
  | failed : JobStatus
deriving Repr, DecidableEq

/-- Per-recipient transmission outcome over the mail channel. -/
inductive Outcome where
  | delivered : Outcome
  | failedWith (reason : String) : Outcome
deriving Repr, DecidableEq

/-- Test for a successful transmission. -/
def isDelivered : Outcome → Bool
  | Outcome.delivered => true
  | Outcome.failedWith _ => false

/-- Record of one delivery attempt, one per recipient. -/
structure DeliveryResult where
  recipient_id : String
  outcome : Outcome
  attempted_at : Int
deriving Repr, DecidableEq

/-- Modelled from the spec: the SendJob record tracked by the dispatch
scheduler (`{newsletter_id, recipient_ids, mode, scheduled_for?, status}`),
together with the stored per-recipient results of its execution. -/
structure SendJob where
  newsletter_id : String
  recipient_ids : List String
  mode : SendMode
  scheduled_for : Option Int
  status : JobStatus
  results : List DeliveryResult
deriving Repr, DecidableEq

/-- Validation failures of a send request. -/
inductive ScheduleError where
  | emptyRecipients : ScheduleError
  | invalidSchedule : ScheduleError
deriving Repr, DecidableEq

/-- Modelled from the spec: `create_job` of the dispatch scheduler.  It
validates at least one recipient and, for scheduled mode, that
`scheduled_for` is strictly in the future, failing with
`InvalidScheduleError` otherwise; a failed validation creates no job state
and transmits nothing (the error branch carries no job). -/
def create_job (newsletter_id : String) (recipient_ids : List String)
    (mode : SendMode) (scheduled_for : Option Int) (now : Int) :
    Except ScheduleError SendJob :=
  if recipient_ids.isEmpty then
    Except.error ScheduleError.emptyRecipients
  else
    match mode, scheduled_for with
    | SendMode.scheduled, none => Except.error ScheduleError.invalidSchedule
    | SendMode.scheduled, some t =>
        if t ≤ now then
          Except.error ScheduleError.invalidSchedule
        else
          Except.ok ⟨newsletter_id, recipient_ids, mode, some t, JobStatus.pending, []⟩
    | SendMode.immediate, sf =>
        Except.ok ⟨newsletter_id, recipient_ids, mode, sf, JobStatus.pending, []⟩

/-- Terminal statuses admit no further transition. -/
def isTerminal : JobStatus → Bool
  | JobStatus.pending => false
  | _ => true

/-- Aggregate job status from the per-recipient results: `sent` when all
succeeded, `partially_failed` when some succeeded and some failed,
`failed` when none succeeded. -/
def aggregateStatus (rs : List DeliveryResult) : JobStatus :=
  if rs.all (fun r => isDelivered r.outcome) then JobStatus.sent
  else if rs.any (fun r => isDelivered r.outcome) then JobStatus.partially_failed
  else JobStatus.failed

/-- Result of one `execute_job` invocation: the (possibly advanced) job,
the per-recipient results returned to the caller, and the list of
recipients actually transmitted to during this invocation. -/
structure ExecOutcome where
  job : SendJob
  results : List DeliveryResult
  attempted : List String
deriving Repr, DecidableEq

/-- Modelled from the spec: `execute_job` of the delivery engine.  On a
terminal job it is a cached no-op returning the stored results without
transmitting; on a pending job it transmits once per recipient over the
mail channel `send`, records one DeliveryResult per recipient, and
advances the status to the aggregate outcome. -/
def execute_job (job : SendJob) (send : String → Outcome) (now : Int) : ExecOutcome :=
  if isTerminal job.status then
    ⟨job, job.results, []⟩
  else
    let rs := job.recipient_ids.map (fun rid => ⟨rid, send rid, now⟩)
    ⟨{ job with status := aggregateStatus rs, results := rs }, rs, job.recipient_ids⟩

/-- Send request body of `POST /api/send-newsletter` as assembled by
`handleSend` in `NewsletterEditor`. -/
structure SendRequest where
  newsletterId : String
  clientIds : List String
  scheduledTime : Option Int
  sendImmediately : Bool
deriving Repr, DecidableEq

/-- Send response of `POST /api/send-newsletter` per the integration
document: `{success, message, recipients, scheduledFor | null}`. -/
structure SendResponse where
  success : Bool
  message : String
  recipients : Nat
  scheduledFor : Option Int
deriving Repr, DecidableEq

/-- Test for a malformed schedule: absent, or not strictly in the future. -/
def malformedSchedule (st : Option Int) (now : Int) : Bool :=
  match st with
  | none => true
  | some t => decide (t ≤ now)

/-- Modelled from the spec: the send-newsletter operation.  It creates the
job (validating before any side effect), executes it synchronously in
immediate mode, leaves it pending in scheduled mode, and on success
returns the `{success, message, recipients, scheduledFor}` record. -/
def send_newsletter (req : SendRequest) (send : String → Outcome) (now : Int) :
    Except ScheduleError (SendResponse × SendJob) :=
  let mode := if req.sendImmediately then SendMode.immediate else SendMode.scheduled
  match create_job req.newsletterId req.clientIds mode req.scheduledTime now with
  | Except.error e => Except.error e
  | Except.ok job =>
      if req.sendImmediately then
        let ex := execute_job job send now
        Except.ok ({ success := true
                     message := "Newsletter sent successfully"
                     recipients := req.clientIds.length
                     scheduledFor := none }, ex.job)
      else
        Except.ok ({ success := true
                     message := "Newsletter scheduled successfully"
                     recipients := req.clientIds.length
                     scheduledFor := job.scheduled_for }, job)

/-! ## Draft synthesizer boundary

The backend implementing `POST /api/generate-draft` is not under the
checked-in sources; the definitions below are modelled from the
specification (sections 4.3 and 6) and the integration document. -/

/-- Draft-generation success response per the boundary contract:
the draft text, the source ids used, and the generation timestamp. -/
structure DraftResponse where
  draft : String
  sources_used : List String
  generation_time : String
deriving Repr, DecidableEq

/-- Typed failure of a draft-generation request. -/
inductive GenError where
  | synthesisError : GenError
deriving Repr, DecidableEq

/-- Modelled from the spec: the draft-generation operation.  `modelOut` is
the outcome of the language-model call after its internal retries; an
unreachable backend or empty returned text fails with `SynthesisError`
(never a degraded success record), otherwise the text is capped at
`maxLen` and every source of the request is recorded as used. -/
def generate_draft (req : GenRequest) (modelOut : Except Unit String)
    (ts : String) (maxLen : Nat) : Except GenError DraftResponse :=
  match modelOut with
  | Except.error _ => Except.error GenError.synthesisError
  | Except.ok text =>
      if text = "" then
        Except.error GenError.synthesisError
      else
        Except.ok { draft := text.take maxLen
                    sources_used := req.sources.map (fun s => s.id)
                    generation_time := ts }

/-! ## Content normalizer and deduplicator

The backend normalizer is not under the checked-in sources; the
definitions below are modelled from the specification (section 4.2):
recency filter, similarity key (normalized title plus canonical URL
host+path), first-seen deduplication per key, recency-descending sort with
deterministic tie-breaks, and truncation with a per-source diversity cap. -/

/-- Content item produced by a source fetcher. -/
structure ContentItem where
  source_id : String
  title : String
  url : String
  published_at : Int
  summary : String
deriving Repr, DecidableEq

/-- Normalized title: lower-cased with punctuation stripped (only letters,
digits and spaces kept). -/
def normalizeTitle (s : String) : String :=
  String.mk (s.toLower.data.filter (fun c => c.isAlphanum || c = ' '))

/-- Canonical URL host+path: scheme stripped, query and fragment cut off,
trailing slash dropped. -/
def canonUrl (u : String) : String :=
  let u := if u.startsWith "https://" then u.drop 8
           else if u.startsWith "http://" then u.drop 7
           else u
  let u := u.takeWhile (fun c => c != '?' && c != '#')
  if u.endsWith "/" then u.dropRight 1 else u

/-- Similarity key of an item: normalized title plus canonicalized URL. -/
def similarityKey (i : ContentItem) : String :=
  normalizeTitle i.title ++ "|" ++ canonUrl i.url

/-- First-seen deduplication by similarity key; `seen` accumulates the
keys already kept. -/
def dedupByKey : List ContentItem → List String → List ContentItem
  | [], _ => []
  | i :: rest, seen =>
      if similarityKey i ∈ seen then
        dedupByKey rest seen
      else
        i :: dedupByKey rest (similarityKey i :: seen)

/-- Sort key: `published_at` descending, ties broken by `source_id` then
`title`, giving a byte-reproducible order. -/
def sortKey (i : ContentItem) : Lex (Int × Lex (String × String)) :=
  toLex (-i.published_at, toLex (i.source_id, i.title))

/-- Boolean comparator induced by the sort key. -/
def itemLE (a b : ContentItem) : Bool :=
  decide (sortKey a ≤ sortKey b)

/-- Per-source cap used when truncation must preserve source diversity:
`max_items / active_source_count` rounded up. -/
def perSourceCap (maxItems nSources : Nat) : Nat :=
  (maxItems + (max nSources 1) - 1) / (max nSources 1)

/-- First truncation pass: walk the sorted list, keeping an item while the
global budget is positive and its source is below the per-source cap;
returns the kept items and the skipped items, each in list order. -/
def selectCapped (cap : Nat) : List ContentItem → Nat → List String → List ContentItem × List ContentItem
  | [], _, _ => ([], [])
  | i :: rest, 0, _ => ([], i :: rest)
  | i :: rest, Nat.succ b, chosen =>
      if chosen.count i.source_id < cap then
        ((i :: (selectCapped cap rest b (i.source_id :: chosen)).1),
         (selectCapped cap rest b (i.source_id :: chosen)).2)
      else
        ((selectCapped cap rest (Nat.succ b) chosen).1,
         i :: (selectCapped cap rest (Nat.succ b) chosen).2)

/-- Diversity-aware truncation: the capped pass selects up to `maxItems`
items, remaining slots are refilled by recency from the skipped items, and
the selection is emitted in the canonical order. -/
def diversityTruncate (sorted : List ContentItem) (maxItems nSources : Nat) : List ContentItem :=
  let p := selectCapped (perSourceCap maxItems nSources) sorted maxItems []
  (p.1 ++ p.2.take (maxItems - p.1.length)).mergeSort itemLE

/-- Configuration of one normalizer run. -/
structure NormalizerConfig where
  now : Int
  recencyWindow : Int
  maxItems : Nat
deriving Repr, DecidableEq

/-- Recency filter: items older than the configured window are discarded. -/
def recencyFilter (cfg : NormalizerConfig) (items : List ContentItem) : List ContentItem :=
  items.filter (fun i => decide (cfg.now - cfg.recencyWindow ≤ i.published_at))

/-- Modelled from the spec: the normalizer pipeline — recency filter,
first-seen dedup by similarity key, recency-descending sort with
deterministic tie-breaks, diversity-aware truncation to `maxItems`. -/
def normalizeItems (cfg : NormalizerConfig) (nSources : Nat) (items : List ContentItem) : List ContentItem :=
  diversityTruncate ((dedupByKey (recencyFilter cfg items) []).mergeSort itemLE) cfg.maxItems nSources

/-! ## Theorems -/

/-- Items kept by the dedup pass have keys outside the accumulator. -/
theorem dedup_key_not_seen (l : List ContentItem) :
    ∀ (seen : List String) (i : ContentItem),
      i ∈ dedupByKey l seen → similarityKey i ∉ seen := by
  induction l with
  | nil => intro seen i h; simp [dedupByKey] at h
  | cons j rest ih =>
      intro seen i h
      by_cases hk : similarityKey j ∈ seen
      · rw [dedupByKey, if_pos hk] at h
        exact ih seen i h
      · rw [dedupByKey, if_neg hk] at h
        rcases List.mem_cons.mp h with rfl | hmem
        · exact hk
        · intro hin
          exact (ih _ i hmem) (List.mem_cons_of_mem _ hin)

/-- The dedup pass yields pairwise-distinct similarity keys. -/
theorem dedup_pairwise (l : List ContentItem) :
    ∀ seen, (dedupByKey l seen).Pairwise (fun a b => similarityKey a ≠ similarityKey b) := by
  induction l with
  | nil => intro seen; simp [dedupByKey]
  | cons j rest ih =>
      intro seen
      by_cases hk : similarityKey j ∈ seen
      · rw [dedupByKey, if_pos hk]
        exact ih seen
      · rw [dedupByKey, if_neg hk]
        refine List.Pairwise.cons ?_ (ih _)
        intro b hb he
        apply dedup_key_not_seen rest _ b hb
        rw [← he]
        exact List.mem_cons_self _ _

/-- The capped pass keeps at most `b` items. -/
theorem selectCapped_fst_length (cap : Nat) (l : List ContentItem) :
    ∀ (b : Nat) (chosen : List String),
      (selectCapped cap l b chosen).1.length ≤ b := by
  induction l with
  | nil => intro b chosen; simp [selectCapped]
  | cons i rest ih =>
      intro b chosen
      cases b with
      | zero => simp [selectCapped]
      | succ b =>
          rw [selectCapped]
          split
          · show (i :: (selectCapped cap rest b (i.source_id :: chosen)).1).length ≤ b + 1
            simp only [List.length_cons]
            exact Nat.succ_le_succ (ih b _)
          · show (selectCapped cap rest (b + 1) chosen).1.length ≤ b + 1
            exact ih (b + 1) chosen

/-- Kept and skipped items of the capped pass partition the input. -/
theorem selectCapped_append_perm (cap : Nat) (l : List ContentItem) :
    ∀ (b : Nat) (chosen : List String),
      ((selectCapped cap l b chosen).1 ++ (selectCapped cap l b chosen).2).Perm l := by
  induction l with
  | nil => intro b chosen; simp [selectCapped]
  | cons i rest ih =>
      intro b chosen
      cases b with
      | zero => simp [selectCapped]
      | succ b =>
          rw [selectCapped]
          split
          · show ((i :: (selectCapped cap rest b (i.source_id :: chosen)).1) ++
                  (selectCapped cap rest b (i.source_id :: chosen)).2).Perm (i :: rest)
            simpa using (ih b _).cons i
          · show ((selectCapped cap rest (b + 1) chosen).1 ++
                  (i :: (selectCapped cap rest (b + 1) chosen).2)).Perm (i :: rest)
            exact List.perm_middle.trans ((ih (b + 1) chosen).cons i)

/-- Transitivity of the item comparator. -/
theorem itemLE_trans (a b c : ContentItem) (h1 : itemLE a b = true) (h2 : itemLE b c = true) :
    itemLE a c = true := by
  simp only [itemLE, decide_eq_true_eq] at h1 h2 ⊢
  exact le_trans h1 h2

/-- Totality of the item comparator. -/
theorem itemLE_total (a b : ContentItem) : (itemLE a b || itemLE b a) = true := by
  simp only [itemLE, Bool.or_eq_true, decide_eq_true_eq]
  exact le_total _ _

/-- The comparator refines recency-descending order. -/
theorem itemLE_pub (a b : ContentItem) (h : itemLE a b = true) :
    b.published_at ≤ a.published_at := by
  simp only [itemLE, decide_eq_true_eq, sortKey] at h
  rcases (Prod.Lex.le_iff _ _).mp h with hlt | ⟨heq, _⟩
  · omega
  · omega

/-- Pairwise properties survive the refill-and-resort step of the
truncation. -/
theorem truncStep_pairwise {R : ContentItem → ContentItem → Prop}
    (hsymm : ∀ {x y : ContentItem}, R x y → R y x)
    (p : List ContentItem × List ContentItem) (m : Nat) (l : List ContentItem)
    (hperm : (p.1 ++ p.2).Perm l) (h : l.Pairwise R) :
    ((p.1 ++ p.2.take (m - p.1.length)).mergeSort itemLE).Pairwise R := by
  have hsub : (p.1 ++ p.2.take (m - p.1.length)).Sublist (p.1 ++ p.2) :=
    List.Sublist.append_left (List.take_sublist _ _) p.1
  have h2 : (p.1 ++ p.2).Pairwise R := (hperm.pairwise_iff hsymm).mpr h
  have h3 := List.Pairwise.sublist hsub h2
  exact ((List.mergeSort_perm _ itemLE).pairwise_iff hsymm).mpr h3

/-- Length bound of the refill-and-resort step. -/
theorem truncStep_length (p : List ContentItem × List ContentItem) (m : Nat)
    (hp : p.1.length ≤ m) :
    ((p.1 ++ p.2.take (m - p.1.length)).mergeSort itemLE).length ≤ m := by
  rw [(List.mergeSort_perm _ itemLE).length_eq]
  simp only [List.length_append, List.length_take]
  omega

/-- Truncation output is sorted by the canonical comparator. -/
theorem diversityTruncate_sorted (l : List ContentItem) (m n : Nat) :
    (diversityTruncate l m n).Pairwise (fun a b => itemLE a b = true) :=
  List.sorted_mergeSort itemLE_trans itemLE_total _

/-- Claim C7: for every input item list, the normalizer output contains no
two items with an equal normalized URL/title similarity key, is sorted by
`published_at` descending, and its size never exceeds the configured
maximum item count. -/
theorem normalizeItems_invariants (cfg : NormalizerConfig) (nSources : Nat)
    (items : List ContentItem) :
    (normalizeItems cfg nSources items).Pairwise
      (fun a b => similarityKey a ≠ similarityKey b) ∧
    (normalizeItems cfg nSources items).Pairwise
      (fun a b => b.published_at ≤ a.published_at) ∧
    (normalizeItems cfg nSources items).length ≤ cfg.maxItems := by
  have hsymm : ∀ {x y : ContentItem},
      similarityKey x ≠ similarityKey y → similarityKey y ≠ similarityKey x :=
    fun h e => h e.symm
  refine ⟨?_, ?_, ?_⟩
  · have hdd := dedup_pairwise (recencyFilter cfg items) []
    have hsorted :
        ((dedupByKey (recencyFilter cfg items) []).mergeSort itemLE).Pairwise
          (fun a b => similarityKey a ≠ similarityKey b) :=
      ((List.mergeSort_perm _ itemLE).pairwise_iff hsymm).mpr hdd
    exact truncStep_pairwise hsymm
      (selectCapped (perSourceCap cfg.maxItems nSources)
        ((dedupByKey (recencyFilter cfg items) []).mergeSort itemLE) cfg.maxItems [])
      cfg.maxItems _
      (selectCapped_append_perm _ _ _ _) hsorted
  · exact (diversityTruncate_sorted
      ((dedupByKey (recencyFilter cfg items) []).mergeSort itemLE)
      cfg.maxItems nSources).imp (fun h => itemLE_pub _ _ h)
  · exact truncStep_length
      (selectCapped (perSourceCap cfg.maxItems nSources)
        ((dedupByKey (recencyFilter cfg items) []).mergeSort itemLE) cfg.maxItems [])
      cfg.maxItems
      (selectCapped_fst_length _ _ _ _)

/-- Aggregate status is `sent` when every recipient succeeded. -/
theorem aggregateStatus_sent (rs : List DeliveryResult)
    (h : ∀ r ∈ rs, isDelivered r.outcome = true) :
    aggregateStatus rs = JobStatus.sent := by
  unfold aggregateStatus
  rw [if_pos (List.all_eq_true.mpr h)]

/-- Aggregate status is `partially_failed` on a mixed outcome. -/
theorem aggregateStatus_partial (rs : List DeliveryResult)
    (h1 : ∃ r ∈ rs, isDelivered r.outcome = true)
    (h2 : ∃ r ∈ rs, isDelivered r.outcome = false) :
    aggregateStatus rs = JobStatus.partially_failed := by
  unfold aggregateStatus
  obtain ⟨r, hr, hf⟩ := h2
  have hall : ¬ (rs.all (fun r => isDelivered r.outcome) = true) := by
    intro hall
    have := List.all_eq_true.mp hall r hr
    rw [hf] at this
    exact Bool.false_ne_true this
  rw [if_neg hall, if_pos (List.any_eq_true.mpr h1)]

/-- Aggregate status is `failed` when no recipient succeeded (and there
was at least one attempt). -/
theorem aggregateStatus_failed (rs : List DeliveryResult)
    (hne : rs ≠ [])
    (h : ∀ r ∈ rs, isDelivered r.outcome = false) :
    aggregateStatus rs = JobStatus.failed := by
  unfold aggregateStatus
  obtain ⟨r, hr⟩ := List.exists_mem_of_ne_nil rs hne
  have hall : ¬ (rs.all (fun r => isDelivered r.outcome) = true) := by
    intro hall
    have := List.all_eq_true.mp hall r hr
    rw [h r hr] at this
    exact Bool.false_ne_true this
  have hany : ¬ (rs.any (fun r => isDelivered r.outcome) = true) := by
    intro hany
    obtain ⟨x, hx, hxt⟩ := List.any_eq_true.mp hany
    rw [h x hx] at hxt
    exact Bool.false_ne_true hxt
  rw [if_neg hall, if_neg hany]

/-- Claim C5: re-invoking execution on a SendJob whose status is terminal
(`sent`, `partially_failed` or `failed`) is a no-op: the stored results
are returned, the job (its status included) is unchanged, and no
transmission is attempted. -/
theorem execute_job_terminal_noop (job : SendJob) (send : String → Outcome) (now : Int)
    (h : job.status = JobStatus.sent ∨ job.status = JobStatus.partially_failed ∨
         job.status = JobStatus.failed) :
    execute_job job send now = ⟨job, job.results, []⟩ := by
  unfold execute_job
  rcases h with h | h | h <;> simp [h, isTerminal]

/-- Witness for C5 at a concrete already-sent job. -/
theorem execute_job_terminal_noop_witness :
    execute_job
      ⟨"n1", ["r1"], SendMode.immediate, none, JobStatus.sent,
        [⟨"r1", Outcome.delivered, 3⟩]⟩
      (fun _ => Outcome.failedWith "down") 9
    = ⟨⟨"n1", ["r1"], SendMode.immediate, none, JobStatus.sent,
        [⟨"r1", Outcome.delivered, 3⟩]⟩,
       [⟨"r1", Outcome.delivered, 3⟩], []⟩ :=
  execute_job_terminal_noop _ _ _ (Or.inl rfl)

/-- Claim C6: executing a pending SendJob records exactly one
DeliveryResult per recipient (in order), and the resulting status is
determined by the per-recipient outcomes: `sent` when all succeeded,
`partially_failed` when some succeeded and some failed, `failed` when
none succeeded. -/
theorem execute_job_status_by_outcomes (job : SendJob) (send : String → Outcome) (now : Int)
    (h : job.status = JobStatus.pending) :
    (execute_job job send now).results.length = job.recipient_ids.length ∧
    (execute_job job send now).results.map (fun r => r.recipient_id) = job.recipient_ids ∧
    ((∀ r ∈ (execute_job job send now).results, isDelivered r.outcome = true) →
        (execute_job job send now).job.status = JobStatus.sent) ∧
    ((∃ r ∈ (execute_job job send now).results, isDelivered r.outcome = true) →
     (∃ r ∈ (execute_job job send now).results, isDelivered r.outcome = false) →
        (execute_job job send now).job.status = JobStatus.partially_failed) ∧
    (((execute_job job send now).results ≠ []) →
     (∀ r ∈ (execute_job job send now).results, isDelivered r.outcome = false) →
        (execute_job job send now).job.status = JobStatus.failed) := by
  unfold execute_job
  simp only [h, isTerminal, if_neg Bool.false_ne_true]
  refine ⟨by simp, by simp [Function.comp_def], ?_, ?_, ?_⟩
  · intro hall
    exact aggregateStatus_sent _ hall
  · intro h1 h2
    exact aggregateStatus_partial _ h1 h2
  · intro hne hall
    exact aggregateStatus_failed _ hne hall

/-- Witness for C6 at the spec's test vector: three recipients with the
second one failing yields `partially_failed`. -/
theorem execute_job_status_by_outcomes_witness :
    (execute_job
      ⟨"n1", ["r1", "r2", "r3"], SendMode.immediate, none, JobStatus.pending, []⟩
      (fun r => if r = "r2" then Outcome.failedWith "smtp error" else Outcome.delivered)
      0).job.status = JobStatus.partially_failed :=
  ((execute_job_status_by_outcomes _ _ _ rfl).2.2.2.1) (by decide) (by decide)

/-- Creating a job with an empty recipient list fails. -/
theorem create_job_empty (nid : String) (rids : List String) (mode : SendMode)
    (sf : Option Int) (now : Int) (h : rids.isEmpty = true) :
    create_job nid rids mode sf now = Except.error ScheduleError.emptyRecipients := by
  unfold create_job
  rw [if_pos h]

/-- Characterization of a successful scheduled-mode job creation. -/
theorem create_job_scheduled_ok (nid : String) (rids : List String)
    (st : Option Int) (now : Int) (job' : SendJob)
    (hc : create_job nid rids SendMode.scheduled st now = Except.ok job') :
    ∃ t, st = some t ∧ now < t ∧
      job' = ⟨nid, rids, SendMode.scheduled, some t, JobStatus.pending, []⟩ := by
  unfold create_job at hc
  by_cases hemp : rids.isEmpty = true
  · rw [if_pos hemp] at hc
    exact Except.noConfusion hc
  · rw [if_neg hemp] at hc
    cases st with
    | none => exact Except.noConfusion hc
    | some t =>
        have hc' : (if t ≤ now then (Except.error ScheduleError.invalidSchedule : Except ScheduleError SendJob)
                    else Except.ok ⟨nid, rids, SendMode.scheduled, some t, JobStatus.pending, []⟩)
                   = Except.ok job' := hc
        by_cases hle : t ≤ now
        · rw [if_pos hle] at hc'
          exact Except.noConfusion hc'
        · rw [if_neg hle] at hc'
          simp only [Except.ok.injEq] at hc'
          exact ⟨t, rfl, by omega, hc'.symm⟩

/-- A nonempty scheduled-mode creation with a malformed schedule fails
with `InvalidScheduleError`. -/
theorem create_job_scheduled_malformed (nid : String) (rids : List String)
    (st : Option Int) (now : Int) (hemp : rids.isEmpty = false)
    (hmal : malformedSchedule st now = true) :
    create_job nid rids SendMode.scheduled st now = Except.error ScheduleError.invalidSchedule := by
  unfold create_job
  rw [if_neg (by simp [hemp])]
  cases st with
  | none => rfl
  | some t =>
      have hle : t ≤ now := by simpa [malformedSchedule] using hmal
      show (if t ≤ now then (Except.error ScheduleError.invalidSchedule : Except ScheduleError SendJob)
            else Except.ok ⟨nid, rids, SendMode.scheduled, some t, JobStatus.pending, []⟩)
           = Except.error ScheduleError.invalidSchedule
      rw [if_pos hle]

/-- Claim C1: every successful send-newsletter operation returns a record
with a boolean success flag set, a recipient count equal to the number of
recipients of the request, and a scheduledFor field that is the (strictly
future) scheduled instant for deferred sends and null for immediate sends
— never a bare boolean. -/
theorem send_newsletter_response_shape (req : SendRequest) (send : String → Outcome)
    (now : Int) (resp : SendResponse) (job : SendJob)
    (h : send_newsletter req send now = Except.ok (resp, job)) :
    resp.success = true ∧
    resp.recipients = req.clientIds.length ∧
    (req.sendImmediately = true → resp.scheduledFor = none) ∧
    (req.sendImmediately = false →
      ∃ t, req.scheduledTime = some t ∧ resp.scheduledFor = some t ∧ now < t) := by
  by_cases himm : req.sendImmediately = true
  · simp only [send_newsletter, himm, if_true] at h
    cases hc : create_job req.newsletterId req.clientIds SendMode.immediate req.scheduledTime now with
    | error e =>
        rw [hc] at h
        exact Except.noConfusion h
    | ok job' =>
        rw [hc] at h
        simp only [Except.ok.injEq, Prod.mk.injEq] at h
        obtain ⟨hresp, hjob⟩ := h
        refine ⟨by rw [← hresp], by rw [← hresp], fun _ => by rw [← hresp], fun hF => ?_⟩
        rw [himm] at hF
        exact Bool.noConfusion hF
  · rw [Bool.not_eq_true] at himm
    simp only [send_newsletter, himm, Bool.false_eq_true, if_false] at h
    cases hc : create_job req.newsletterId req.clientIds SendMode.scheduled req.scheduledTime now with
    | error e =>
        rw [hc] at h
        exact Except.noConfusion h
    | ok job' =>
        rw [hc] at h
        simp only [Except.ok.injEq, Prod.mk.injEq] at h
        obtain ⟨hresp, hjob⟩ := h
        obtain ⟨t, hst, hlt, hjob'⟩ := create_job_scheduled_ok _ _ _ _ _ hc
        refine ⟨by rw [← hresp], by rw [← hresp], fun hT => ?_, fun _ => ⟨t, hst, ?_, hlt⟩⟩
        · rw [himm] at hT
          exact Bool.noConfusion hT
        · rw [← hresp]
          show job'.scheduled_for = some t
          rw [hjob']

/-- Witness for C1 at a concrete immediate send to two recipients. -/
theorem send_newsletter_response_shape_witness :
    (⟨true, "Newsletter sent successfully", 2, none⟩ : SendResponse).success = true ∧
    (⟨true, "Newsletter sent successfully", 2, none⟩ : SendResponse).recipients =
      (⟨"n1", ["a", "b"], none, true⟩ : SendRequest).clientIds.length ∧
    ((⟨"n1", ["a", "b"], none, true⟩ : SendRequest).sendImmediately = true →
      (⟨true, "Newsletter sent successfully", 2, none⟩ : SendResponse).scheduledFor = none) ∧
    ((⟨"n1", ["a", "b"], none, true⟩ : SendRequest).sendImmediately = false →
      ∃ t, (⟨"n1", ["a", "b"], none, true⟩ : SendRequest).scheduledTime = some t ∧
        (⟨true, "Newsletter sent successfully", 2, none⟩ : SendResponse).scheduledFor = some t ∧
        (0 : Int) < t) :=
  send_newsletter_response_shape ⟨"n1", ["a", "b"], none, true⟩
    (fun _ => Outcome.delivered) 0 _ _ rfl

/-- Claim C4: a send request with an empty recipient list, or a
non-immediate request whose schedule is absent or not strictly in the
future, is rejected at validation (the malformed schedule with
`InvalidScheduleError`); the operation returns an error, so no job state
is created and no message is transmitted. -/
theorem send_validation_rejects (req : SendRequest) (send : String → Outcome) (now : Int) :
    (req.clientIds = [] →
      send_newsletter req send now = Except.error ScheduleError.emptyRecipients) ∧
    (req.clientIds ≠ [] → req.sendImmediately = false →
      malformedSchedule req.scheduledTime now = true →
      send_newsletter req send now = Except.error ScheduleError.invalidSchedule) := by
  constructor
  · intro hnil
    simp only [send_newsletter]
    rw [create_job_empty _ _ _ _ _ (by simp [hnil])]
  · intro hne hsi hmal
    have hemp : req.clientIds.isEmpty = false := by
      cases hcl : req.clientIds with
      | nil => exact absurd hcl hne
      | cons a l => rfl
    simp only [send_newsletter, hsi, Bool.false_eq_true, if_false]
    rw [create_job_scheduled_malformed _ _ _ _ hemp hmal]

/-- Witness for C4 at a concrete empty-recipient request and a concrete
past-schedule request. -/
theorem send_validation_rejects_witness :
    send_newsletter ⟨"n1", [], none, true⟩ (fun _ => Outcome.delivered) 0
      = Except.error ScheduleError.emptyRecipients ∧
    send_newsletter ⟨"n2", ["c1"], some 3, false⟩ (fun _ => Outcome.delivered) 5
      = Except.error ScheduleError.invalidSchedule :=
  ⟨(send_validation_rejects _ _ _).1 rfl,
   (send_validation_rejects _ _ _).2 (by simp) rfl (by decide)⟩

/-- Claim C2: a successful draft-generation response carries the draft
text produced by the model, the ids of all request sources as
`sources_used`, and the generation timestamp; an unreachable model or an
empty model answer yields the typed `SynthesisError`, never a
success-shaped record. -/
theorem generate_draft_contract (req : GenRequest) (modelOut : Except Unit String)
    (ts : String) (maxLen : Nat) :
    (∀ r, generate_draft req modelOut ts maxLen = Except.ok r →
        (∃ text, modelOut = Except.ok text ∧ text ≠ "" ∧ r.draft = text.take maxLen) ∧
        r.sources_used = req.sources.map (fun s => s.id) ∧
        r.generation_time = ts) ∧
    ((modelOut = Except.error () ∨ modelOut = Except.ok "") →
        generate_draft req modelOut ts maxLen = Except.error GenError.synthesisError) := by
  constructor
  · intro r hr
    cases modelOut with
    | error u => simp [generate_draft] at hr
    | ok text =>
        by_cases ht : text = ""
        · simp [generate_draft, ht] at hr
        · simp only [generate_draft, if_neg ht, Except.ok.injEq] at hr
          subst hr
          exact ⟨⟨text, rfl, ht, rfl⟩, rfl, rfl⟩
  · rintro (rfl | rfl) <;> simp [generate_draft]

/-- Witness for C2: an empty model answer is a typed failure. -/
theorem generate_draft_contract_witness :
    generate_draft ⟨"new", []⟩ (Except.ok "") "2024-01-01T00:00:00Z" 4000
      = Except.error GenError.synthesisError :=
  (generate_draft_contract _ _ _ _).2 (Or.inr rfl)

/-- Claim C3: when the draft-generation call fails, or succeeds without a
truthy draft text, `handleGenerateFromSources` leaves the editor form
(its newsletter content included) unchanged and surfaces a failure alert;
it never installs an empty or placeholder draft. -/
theorem handleGenerate_preserves_content (sources : List Source)
    (api : Except String ApiDraftResponse) (st : FormData)
    (hs : sources ≠ [])
    (h : (∃ msg, api = Except.error msg) ∨
         (∃ r, api = Except.ok r ∧ optStrTruthy r.draft = false)) :
    (handleGenerateFromSources sources api st).1 = st ∧
    ∃ msg, (handleGenerateFromSources sources api st).2 = GenAlert.genFailed msg := by
  have hlen : ¬ (sources.length = 0) := fun e => hs (List.length_eq_zero.mp e)
  rcases h with ⟨msg, rfl⟩ | ⟨r, rfl, hf⟩
  · refine ⟨?_, msg, ?_⟩ <;> simp [handleGenerateFromSources, hs]
  · refine ⟨?_, "No draft content received from API", ?_⟩ <;>
      simp [handleGenerateFromSources, hs, hf]

/-- Witness for C3 at a concrete failed API call. -/
theorem handleGenerate_preserves_content_witness :
    (handleGenerateFromSources [⟨"s1", "rss", "AI News", "https://e.com/f", true⟩]
        (Except.error "Request failed") ⟨"T", "existing content", "draft"⟩).1
      = ⟨"T", "existing content", "draft"⟩ ∧
    ∃ msg, (handleGenerateFromSources [⟨"s1", "rss", "AI News", "https://e.com/f", true⟩]
        (Except.error "Request failed") ⟨"T", "existing content", "draft"⟩).2
      = GenAlert.genFailed msg :=
  handleGenerate_preserves_content _ _ _ (by simp) (Or.inl ⟨"Request failed", rfl⟩)

/-- Claim C8: every source included in a draft-generation request built by
the frontend has `active = true` — the fetched source list is filtered to
active sources, so the request never carries an inactive source. -/
theorem generate_request_sources_active (table : List Source) (nl : Option Newsletter)
    (s : Source) (h : s ∈ (buildGenerateRequest nl (fetchSources table)).sources) :
    s.active = true := by
  simp only [buildGenerateRequest, List.mem_map] at h
  obtain ⟨t, ht, rfl⟩ := h
  have ht2 : t ∈ table.filter (fun s => s.active) := by
    have hp := List.mergeSort_perm (table.filter (fun s => s.active)) srcNameLE
    exact hp.mem_iff.mp (by simpa [fetchSources] using ht)
  have ha := List.of_mem_filter ht2
  simpa [toSourceData] using ha

/-- Witness for C8 at a concrete one-row sources table. -/
theorem generate_request_sources_active_witness :
    (⟨"s1", "rss", "AI News", "https://a.com/feed", true⟩ : Source).active = true :=
  generate_request_sources_active
    [⟨"s1", "rss", "AI News", "https://a.com/feed", true⟩,
     ⟨"s2", "blog", "Off", "https://b.com", false⟩] none _
    (by simp [buildGenerateRequest, fetchSources, List.mergeSort_singleton, toSourceData])

/-- Claim C9: the newsletter identifier carried by a draft-generation
request is either the id of the already-persisted newsletter or the
sentinel `"new"`, and the backend accepts the sentinel without applying
UUID validation to it (the sentinel is not UUID-shaped, yet accepted). -/
theorem generate_request_newsletter_id (nl : Option Newsletter) :
    (newsletterIdFor nl = "new" ∨ ∃ n, nl = some n ∧ newsletterIdFor nl = n.id) ∧
    acceptsNewsletterId "new" = true ∧
    isUuidFormat "new" = false := by
  refine ⟨?_, by decide, by decide⟩
  cases nl with
  | none => exact Or.inl rfl
  | some n =>
      by_cases h : n.id = ""
      · exact Or.inl (by simp [newsletterIdFor, h])
      · exact Or.inr ⟨n, rfl, by simp [newsletterIdFor, h]⟩

/-- Claim C10 counterexample: a non-ok response whose body is
`{"detail": null}` produces the error message `"null"` (the
`JSON.stringify` of `null`, because `typeof null === 'object'` in
JavaScript), although `null` is neither a string nor an object, so the
claimed fallback `HTTP <status>: <statusText>` is not used. -/
theorem apiRequest_null_detail_counterexample :
    apiRequest ⟨false, 500, "Internal Server Error",
        Except.ok (Json.obj [("detail", Json.null)])⟩
      = Except.error "null" ∧
    isJsonString Json.null = false ∧
    isJsonObject Json.null = false ∧
    "null" ≠ httpFallback 500 "Internal Server Error" := by
  refine ⟨rfl, rfl, rfl, ?_⟩
  decide

/-- Claim C10 (amended): `ApiService.request` returns the parsed JSON body
of an ok response; on a non-ok response it never returns and throws an
Error whose message is the body's `detail` when that is a string, the
`JSON.stringify` of `detail` when `typeof detail === 'object'` (a JSON
object, array, or `null`), and otherwise `HTTP <status>: <statusText>`
(also used when the body fails to parse, via the `{}` fallback, or when
`detail` is absent, a number, or a boolean). -/
theorem apiRequest_behavior (resp : HttpResponse) :
    (resp.ok = true → apiRequest resp = resp.body) ∧
    (resp.ok = false → ∀ j, resp.body = Except.ok j →
        apiRequest resp = Except.error (extractErrorMessage j resp.status resp.statusText)) ∧
    (resp.ok = false → ∀ e, resp.body = Except.error e →
        apiRequest resp = Except.error (extractErrorMessage (Json.obj []) resp.status resp.statusText)) ∧
    (∀ ed st stx s, jsonGetField ed "detail" = some (Json.str s) →
        extractErrorMessage ed st stx = s) ∧
    (∀ ed st stx v, jsonGetField ed "detail" = some v → isJsonString v = false →
        jsTypeofIsObject v = true → extractErrorMessage ed st stx = jsonStringify v) ∧
    (∀ ed st stx, (∀ v, jsonGetField ed "detail" = some v →
        isJsonString v = false ∧ jsTypeofIsObject v = false) →
        extractErrorMessage ed st stx = httpFallback st stx) := by
  refine ⟨?_, ?_, ?_, ?_, ?_, ?_⟩
  · intro hok
    simp [apiRequest, hok]
  · intro hok j hj
    simp [apiRequest, hok, hj]
  · intro hok e he
    simp [apiRequest, hok, he]
  · intro ed st stx s hd
    simp [extractErrorMessage, hd]
  · intro ed st stx v hd hns hobj
    unfold extractErrorMessage
    rw [hd]
    cases v with
    | str s => exact absurd hns (by simp [isJsonString])
    | null => simp [jsTypeofIsObject]
    | bool b => exact absurd hobj (by simp [jsTypeofIsObject])
    | num n => exact absurd hobj (by simp [jsTypeofIsObject])
    | arr xs => simp [jsTypeofIsObject]
    | obj fs => simp [jsTypeofIsObject]
  · intro ed st stx hall
    unfold extractErrorMessage
    cases hd : jsonGetField ed "detail" with
    | none => rfl
    | some v =>
        obtain ⟨hns, hobj⟩ := hall v hd
        cases v with
        | str s => exact absurd hns (by simp [isJsonString])
        | null => exact absurd hobj (by simp [jsTypeofIsObject])
        | bool b => simp [jsTypeofIsObject]
        | num n => simp [jsTypeofIsObject]
        | arr xs => exact absurd hobj (by simp [jsTypeofIsObject])
        | obj fs => exact absurd hobj (by simp [jsTypeofIsObject])

/-- Witness for the amended C10 at a concrete ok response and a concrete
string-detail failure. -/
theorem apiRequest_behavior_witness :
    apiRequest ⟨true, 200, "OK", Except.ok (Json.num 1)⟩ = Except.ok (Json.num 1) ∧
    extractErrorMessage (Json.obj [("detail", Json.str "Invalid token")]) 401 "Unauthorized"
      = "Invalid token" :=
  ⟨(apiRequest_behavior _).1 rfl,
   (apiRequest_behavior ⟨true, 200, "OK", Except.ok (Json.num 1)⟩).2.2.2.1 _ 401 "Unauthorized" _ rfl⟩
